import Mathlib

/-!
Verification of the mnemosyne agent-tooling scripts.

The repository holds two Python scripts:

* `scripts/run_agent.py` (the Runner): loads `agents/<name>.json`, renders
  `agents/prompt_template.txt` by substituting the configuration's
  `description`, `expertise` and `guidelines` fields, appends the task
  string (`sys.argv[2:]` joined with single spaces) and prints the result
  between two banner lines of 80 `=` characters.

* `scripts/setup-agents.py` (the Generator): writes five hard-coded agent
  configuration files, the shared prompt template, and a copy of the
  Runner's source (with mode 0o755) and prints a summary.

This file shallowly embeds both scripts.  File contents are Lean strings,
the agents directory is a record of a presence flag, a listing and the
parse result per agent, process outcomes are an inductive (`exitOk`,
`exitErr`, `fatal` for an uncaught Python exception).  Python's
`str.format` is modelled on the fragment the scripts exercise: literal
text, `{{`/`}}` escapes, and plain keyword fields `{description}`,
`{expertise}`, `{guidelines}`; any other field name, a lone brace, or an
unclosed field is a formatting error (`none`), which in Python is an
uncaught `KeyError`/`ValueError`/`IndexError`.
-/

/-- The `\x7b` character. -/
def obrace : Char := Char.ofNat 123

/-- The `\x7d` character. -/
def cbrace : Char := Char.ofNat 125

/-- A JSON value as the scripts use them: a string or a list of strings. -/
inductive PyVal where
  | pstr (s : String)
  | plist (xs : List String)
  deriving DecidableEq

/-- A parsed JSON configuration object: ordered key/value pairs
(Python dicts preserve insertion order). -/
def ConfigRecord := List (String × PyVal)

instance : DecidableEq ConfigRecord := by
  unfold ConfigRecord
  infer_instance

/-- Python dict lookup `cfg[k]`: `some` the first value stored under `k`,
`none` when the key is absent (Python raises `KeyError`). -/
def dictGet (cfg : ConfigRecord) (k : String) : Option PyVal :=
  (cfg.find? (fun kv => kv.1 == k)).map (fun kv => kv.2)

/-- The string payload of a value, `none` on a list. -/
def asStr : PyVal → Option String
  | .pstr s => some s
  | .plist _ => none

/-- The list payload of a value, `none` on a string. -/
def asList : PyVal → Option (List String)
  | .pstr _ => none
  | .plist xs => some xs

/-- `cfg[k]` as a string field. -/
def getStr (cfg : ConfigRecord) (k : String) : Option String :=
  (dictGet cfg k).bind asStr

/-- `cfg[k]` as a list-of-strings field. -/
def getList (cfg : ConfigRecord) (k : String) : Option (List String) :=
  (dictGet cfg k).bind asList

/-- The three-field configuration record
`\x7b"description": d, "expertise": es, "guidelines": gs\x7d`. -/
def mkConfig (d : String) (es gs : List String) : ConfigRecord :=
  [("description", PyVal.pstr d), ("expertise", PyVal.plist es),
   ("guidelines", PyVal.plist gs)]

/-- `'\n'.join(f"- \x7bitem\x7d" for item in xs)`: each entry prefixed with
"- ", entries joined by newlines. -/
def bullets (xs : List String) : String :=
  String.intercalate "\n" (xs.map (fun item => "- " ++ item))

/-- The keyword arguments passed to `template.format` in `format_prompt`:
only `description`, `expertise` and `guidelines` are bound. -/
def fieldValue (d e g : String) : String → Option String
  | "description" => some d
  | "expertise" => some e
  | "guidelines" => some g
  | _ => none

/-- The scanner of Python `str.format`, restricted to the fragment the
scripts use, one character at a time.  `mode = none` scans literal text:
`\x7b\x7b` and `\x7d\x7d` emit one brace, a lone `\x7d` or a trailing
`\x7b` is an error, and `\x7b` before anything else enters field mode.
`mode = some acc` accumulates a field name until the closing `\x7d`, at
which point the name is replaced by its bound value (an unbound name is
an error, as is running out of input inside a field).  Substituted
values are emitted verbatim, never re-scanned. -/
def pyFormatGo (d e g : String) : Option (List Char) → List Char → Option (List Char)
  | none, [] => some []
  | some _, [] => none
  | none, c :: cs =>
    if c = cbrace then
      match cs with
      | c2 :: cs2 =>
        if c2 = cbrace then (pyFormatGo d e g none cs2).map (fun l => cbrace :: l)
        else none
      | [] => none
    else if c = obrace then
      match cs with
      | c2 :: cs2 =>
        if c2 = obrace then (pyFormatGo d e g none cs2).map (fun l => obrace :: l)
        else pyFormatGo d e g (some []) (c2 :: cs2)
      | [] => none
    else (pyFormatGo d e g none cs).map (fun l => c :: l)
  | some acc, c :: cs =>
    if c = cbrace then
      match fieldValue d e g (String.mk acc) with
      | none => none
      | some v => (pyFormatGo d e g none cs).map (fun l => v.data ++ l)
    else pyFormatGo d e g (some (acc ++ [c])) cs

/-- Python `str.format` over a character list: the scanner started in
literal mode. -/
def pyFormatList (d e g : String) (l : List Char) : Option (List Char) :=
  pyFormatGo d e g none l

/-- `template.format(description := d, expertise := e, guidelines := g)`
as a string transformer: `none` models an uncaught formatting exception. -/
def pyFormat (template d e g : String) : Option String :=
  (pyFormatList d e g template.data).map String.mk

/-- `format_prompt(agent_config, task)` from `run_agent.py`, with the
template file contents passed in as `template`.  The three field accesses
(`expertise`, `guidelines`, then `description` inside the `format` call)
and the `format` call itself can each raise; `none` collects every such
fatal path.  On success the rendered template is returned with `task`
appended directly. -/
def format_prompt (cfg : ConfigRecord) (template task : String) : Option String :=
  match getList cfg "expertise", getList cfg "guidelines", getStr cfg "description" with
  | some es, some gs, some d =>
    (pyFormat template d (bullets es) (bullets gs)).map (fun p => p ++ task)
  | _, _, _ => none

/-- The observable outcome of one Runner invocation: `out` is the list of
`print` calls made before the process ended (each call appends a newline).
`exitOk` is a normal return (exit status 0), `exitErr code` is
`sys.exit(code)`, `fatal` is an uncaught Python exception (the process
dies with a traceback on stderr and a non-zero status). -/
inductive Outcome where
  | exitOk (out : List String)
  | exitErr (code : Nat) (out : List String)
  | fatal (out : List String)
  deriving DecidableEq

/-- The `agents` configuration directory as the Runner observes it:
whether the directory exists, its file listing (in directory iteration
order), and for each agent name the parse result of `<name>.json`
(`none` when the file is unreadable or not valid JSON). -/
structure AgentsDir where
  present : Bool
  files : List String
  config : String → Option ConfigRecord

/-- Python `s.endswith(suffix)`. -/
def strEndsWith (s suffix : String) : Bool :=
  suffix.data.isSuffixOf s.data

/-- `os.path.exists` on `agents/<name>.json`: the path exists when the
directory does and the listing holds the file. -/
def agentFileExists (d : AgentsDir) (name : String) : Bool :=
  d.present && d.files.contains (name ++ ".json")

/-- An apostrophe, for building the messages of `run_agent.py`. -/
def apos : String := (Char.ofNat 39).toString

/-- The two lines printed on the not-found path before the directory is
scanned: the error naming the agent, and the "Available agents:" header. -/
def notFoundLines (name : String) : List String :=
  ["Error: Agent " ++ apos ++ name ++ apos ++ " not found", "Available agents:"]

/-- The listing lines of the not-found path: for every file `f` of the
directory with `f.endswith(".json")`, the line `"  - " ++ f[:-5]`. -/
def availableAgentLines (files : List String) : List String :=
  (files.filter (fun f => strEndsWith f ".json")).map
    (fun f => "  - " ++ f.dropRight 5)

/-- `load_agent(agent_name)` from `run_agent.py`.  When the configuration
file exists the parsed record is returned (a parse failure is an uncaught
`json.JSONDecodeError`).  Otherwise the error and header lines are
printed; if the directory exists, `os.listdir` succeeds, the `.json` stems
are printed and the process exits with status 1, and if not, `os.listdir`
raises `FileNotFoundError` uncaught. -/
def load_agent (d : AgentsDir) (name : String) : Except Outcome ConfigRecord :=
  if agentFileExists d name then
    match d.config name with
    | some cfg => Except.ok cfg
    | none => Except.error (Outcome.fatal [])
  else if d.present then
    Except.error (Outcome.exitErr 1 (notFoundLines name ++ availableAgentLines d.files))
  else
    Except.error (Outcome.fatal (notFoundLines name))

/-- The usage line printed when fewer than two positional arguments are
given. -/
def usageLine : String := "Usage: python run_agent.py <agent_name> <task>"

/-- The banner `"=" * 80`. -/
def banner : String := String.mk (List.replicate 80 (Char.ofNat 61))

/-- The `__main__` block of `run_agent.py`.  `argv` is `sys.argv`
(program name first); `template` is the contents of
`agents/prompt_template.txt`.  Fewer than three entries of `argv` print
the usage line and exit 1; otherwise the agent named `argv[1]` is loaded,
the prompt is rendered with the task `' '.join(argv[2:])`, and the prompt
is printed between two banner lines. -/
def runner_main (d : AgentsDir) (template : String) (argv : List String) : Outcome :=
  if argv.length < 3 then Outcome.exitErr 1 [usageLine]
  else
    let agent_name := argv.getD 1 ""
    let task := String.intercalate " " (argv.drop 2)
    match load_agent d agent_name with
    | Except.error o => o
    | Except.ok cfg =>
      match format_prompt cfg template task with
      | none => Outcome.fatal []
      | some prompt => Outcome.exitOk ["Agent Prompt:", banner, prompt, banner]

/-- The byte stream a list of `print` calls writes to standard output:
each call's argument followed by one newline. -/
def outStr : List String → String
  | [] => ""
  | l :: ls => (l ++ "\n") ++ outStr ls

/-- A template text split into pieces: literal text and placeholder
fields.  `flattenT` recovers the raw template string. -/
inductive TItem where
  | lit (s : String)
  | field (name : String)
  deriving DecidableEq

/-- The raw template text of a piece list: a field named `n` reads
`\x7bn\x7d`. -/
def flattenT : List TItem → String
  | [] => ""
  | TItem.lit s :: r => s ++ flattenT r
  | TItem.field n :: r => obrace.toString ++ n ++ cbrace.toString ++ flattenT r

/-- The substituted text of a piece list: literals kept verbatim, each
field replaced by its bound value. -/
def renderItems (d e g : String) : List TItem → String
  | [] => ""
  | TItem.lit s :: r => s ++ renderItems d e g r
  | TItem.field n :: r => (fieldValue d e g n).getD "" ++ renderItems d e g r

/-- No brace occurs in `s`. -/
def braceFreeB (s : String) : Bool :=
  s.data.all (fun c => c != obrace && c != cbrace)

/-- A well-formed piece: a brace-free literal, or a field bearing one of
the three bound names. -/
def goodItemB : TItem → Bool
  | TItem.lit s => braceFreeB s
  | TItem.field n => (n == "description") || (n == "expertise") || (n == "guidelines")

/-- Formatting the empty text yields the empty text. -/
theorem pyFormatList_nil (d e g : String) : pyFormatList d e g [] = some [] := rfl

/-- Formatting past a non-brace character copies it. -/
theorem pyFormatList_cons_other (d e g : String) (c : Char) (cs : List Char)
    (hc1 : c ≠ obrace) (hc2 : c ≠ cbrace) :
    pyFormatList d e g (c :: cs) = (pyFormatList d e g cs).map (fun l => c :: l) := by
  unfold pyFormatList
  rw [pyFormatGo.eq_def]
  simp [hc1, hc2]

/-- Formatting copies a brace-free literal prefix verbatim. -/
theorem pyFormatList_lit (d e g : String) (s l : List Char)
    (h : ∀ c ∈ s, c ≠ obrace ∧ c ≠ cbrace) :
    pyFormatList d e g (s ++ l) = (pyFormatList d e g l).map (fun r => s ++ r) := by
  induction s with
  | nil => simp
  | cons a t ih =>
    have ha := h a (List.mem_cons_self a t)
    rw [List.cons_append,
      pyFormatList_cons_other d e g a (t ++ l) ha.1 ha.2,
      ih (fun b hb => h b (List.mem_cons_of_mem a hb))]
    cases pyFormatList d e g l <;> simp

/-- In field mode the scanner accumulates name characters up to the
closing brace, then substitutes the completed name's bound value. -/
theorem pyFormatGo_field (d e g : String) (m acc rest : List Char)
    (hm : ∀ c ∈ m, c ≠ cbrace) :
    pyFormatGo d e g (some acc) (m ++ cbrace :: rest) =
      match fieldValue d e g (String.mk (acc ++ m)) with
      | none => none
      | some v => (pyFormatGo d e g none rest).map (fun l => v.data ++ l) := by
  induction m generalizing acc with
  | nil =>
    rw [List.nil_append, List.append_nil, pyFormatGo.eq_def]
    simp
  | cons a t ih =>
    have ha : a ≠ cbrace := hm a (List.mem_cons_self a t)
    rw [List.cons_append, pyFormatGo.eq_def]
    simp only [if_neg ha]
    rw [ih (acc ++ [a]) (fun b hb => hm b (List.mem_cons_of_mem a hb))]
    simp

/-- An opening brace followed by a non-brace character enters field
mode with an empty name. -/
theorem pyFormatGo_enter (d e g : String) (a : Char) (l : List Char)
    (ha : a ≠ obrace) :
    pyFormatGo d e g none (obrace :: a :: l) = pyFormatGo d e g (some []) (a :: l) := by
  have hobc : ¬ (obrace = cbrace) := by decide
  rw [pyFormatGo.eq_def]
  simp [hobc, ha]

/-- Formatting a bound field emits the bound value verbatim and continues
after the closing brace. -/
theorem pyFormatList_field (d e g n v : String) (rest : List Char)
    (hv : fieldValue d e g n = some v)
    (hn : ∀ c ∈ n.data, c ≠ obrace ∧ c ≠ cbrace) :
    pyFormatList d e g (obrace :: (n.data ++ cbrace :: rest)) =
      (pyFormatList d e g rest).map (fun l => v.data ++ l) := by
  have hname : String.mk n.data = n := rfl
  unfold pyFormatList
  cases hd : n.data with
  | nil =>
    have hn0 : n = "" := by
      rw [← hname, hd]
    rw [hn0] at hv
    exact absurd hv (by simp [fieldValue])
  | cons a t =>
    have ha : a ≠ obrace := (hn a (by rw [hd]; exact List.mem_cons_self a t)).1
    have hmt : ∀ c ∈ a :: t, c ≠ cbrace := by
      intro c hc
      have hcn : c ∈ n.data := by rw [hd]; exact hc
      exact (hn c hcn).2
    rw [List.cons_append, pyFormatGo_enter d e g a (t ++ cbrace :: rest) ha,
      ← List.cons_append, pyFormatGo_field d e g (a :: t) [] rest hmt]
    have hsn : String.mk ([] ++ a :: t) = n := by
      rw [List.nil_append, ← hd]
    rw [hsn, hv]

/-- Characterization of `str.format` on a well-formed piece list: every
literal is copied verbatim and every field is replaced by its bound
value. -/
theorem pyFormatList_flatten (d e g : String) (items : List TItem)
    (h : items.all goodItemB = true) :
    pyFormatList d e g (flattenT items).data = some (renderItems d e g items).data := by
  induction items with
  | nil => simp [flattenT, renderItems, pyFormatList_nil]
  | cons it r ih =>
    have hit : goodItemB it = true := by
      have := List.all_eq_true.mp h
      exact this it (List.mem_cons_self it r)
    have hr : r.all goodItemB = true := by
      refine List.all_eq_true.mpr ?_
      intro x hx
      exact List.all_eq_true.mp h x (List.mem_cons_of_mem it hx)
    cases it with
    | lit s =>
      have hbf : ∀ c ∈ s.data, c ≠ obrace ∧ c ≠ cbrace := by
        simpa [goodItemB, braceFreeB] using hit
      show pyFormatList d e g (s ++ flattenT r).data = _
      rw [String.data_append, pyFormatList_lit d e g s.data (flattenT r).data hbf, ih hr]
      simp [renderItems, String.data_append]
    | field n =>
      have hfv : ∃ v, fieldValue d e g n = some v ∧
          (∀ c ∈ n.data, c ≠ obrace ∧ c ≠ cbrace) := by
        have hn : n = "description" ∨ n = "expertise" ∨ n = "guidelines" := by
          have := hit
          simp only [goodItemB, Bool.or_eq_true, beq_iff_eq] at this
          tauto
        rcases hn with hn | hn | hn <;> subst hn
        · exact ⟨d, rfl, by decide⟩
        · exact ⟨e, rfl, by decide⟩
        · exact ⟨g, rfl, by decide⟩
      obtain ⟨v, hv, hbf⟩ := hfv
      show pyFormatList d e g (obrace.toString ++ n ++ cbrace.toString ++ flattenT r).data = _
      have hdata : (obrace.toString ++ n ++ cbrace.toString ++ flattenT r).data
          = obrace :: (n.data ++ cbrace :: (flattenT r).data) := by
        simp [String.data_append]
        rfl
      rw [hdata, pyFormatList_field d e g n v (flattenT r).data hv hbf, ih hr]
      simp [renderItems, hv, String.data_append]

/-- `pyFormat` on a well-formed template: substitution piece by piece. -/
theorem pyFormat_flatten (d e g : String) (items : List TItem)
    (h : items.all goodItemB = true) :
    pyFormat (flattenT items) d e g = some (renderItems d e g items) := by
  unfold pyFormat
  rw [pyFormatList_flatten d e g items h]
  rfl

/-- `format_prompt` on the three-field record reduces to formatting the
template with the description verbatim and the two bulleted lists. -/
theorem format_prompt_mkConfig (d : String) (es gs : List String) (template task : String) :
    format_prompt (mkConfig d es gs) template task =
      (pyFormat template d (bullets es) (bullets gs)).map (fun p => p ++ task) := rfl

/-- The fixed table of agent configurations hard-coded in
`setup-agents.py`, in the dict's insertion order, each value the
three-field record of the source. -/
def agents : List (String × ConfigRecord) :=
  [
    ("mcp-implementation", mkConfig "Implement core MCP server functionality and protocol compliance"
    ["MCP protocol implementation", "JSON-RPC 2.0 message handling", "stdio transport setup", "Tool registration systems", "Protocol initialization and capability negotiation"]
    ["Follow MCP SDK documentation strictly", "Ensure all tools are stateless", "Implement proper error handling for protocol messages", "Use TypeScript with strict type checking", "Reference HLD.md for architectural decisions"]),
    ("database-architect", mkConfig "Design and implement SQLite database schema and operations"
    ["SQLite database design", "Schema migrations", "Query optimization", "Transaction management", "Database performance tuning"]
    ["Use exact schema from HLD.md", "Enable WAL mode for concurrency", "Implement atomic transactions for all write operations", "Create indexes for common query patterns", "Use better-sqlite3 synchronous API"]),
    ("tool-implementer", mkConfig "Implement individual MCP tools according to specifications"
    ["MCP tool implementation", "Zod schema validation", "Error handling patterns", "Response formatting", "Stateless design patterns"]
    ["Each tool must complete in single request/response", "Use Zod for all input validation", "Follow standard response format from HLD.md", "Implement comprehensive error handling", "Never expose internal errors to users"]),
    ("search-optimizer", mkConfig "Implement and optimize search functionality with SQLite FTS5"
    ["SQLite FTS5 configuration", "Full-text search optimization", "Query parsing and sanitization", "Search result ranking", "Snippet generation"]
    ["Configure FTS5 for conversation search", "Implement proper query sanitization", "Add BM25 ranking for relevance", "Generate contextual snippets", "Handle special characters in queries"]),
    ("test-engineer", mkConfig "Create comprehensive test suite for all components"
    ["Jest testing framework", "Unit test design", "Integration testing", "Mock strategies", "Test coverage analysis"]
    ["Aim for >80% code coverage", "Test both success and error paths", "Create integration tests for MCP protocol", "Use in-memory SQLite for test isolation", "Test concurrent operations"])]

/-- The master prompt template text `setup-agents.py` writes to
`agents/prompt_template.txt`. -/
def prompt_template : String :=
  "You are a specialized agent for the MCP Persistence System project.\n" ++
  "\n" ++
  "Agent Role: \x7bdescription\x7d\n" ++
  "\n" ++
  "Your Areas of Expertise:\n" ++
  "\x7bexpertise\x7d\n" ++
  "\n" ++
  "Guidelines to Follow:\n" ++
  "\x7bguidelines\x7d\n" ++
  "\n" ++
  "Current Working Directory: /home/john/mnemosyne\n" ++
  "Project Type: TypeScript/Node.js MCP Server\n" ++
  "Key Reference: HLD.md contains the complete system design\n" ++
  "\n" ++
  "Please help with the following task:\n" ++
  ""

/-- The Runner source text embedded in `setup-agents.py` and written to
`run_agent.py` (the checked-in `scripts/run_agent.py` is this same text
followed by one extra trailing newline). -/
def runner_script : String :=
  "#!/usr/bin/env python3\n" ++
  "\"\"\"Agent runner for MCP Persistence System development\"\"\"\n" ++
  "\n" ++
  "import json\n" ++
  "import sys\n" ++
  "import os\n" ++
  "\n" ++
  "def load_agent(agent_name):\n" ++
  "    \"\"\"Load agent configuration\"\"\"\n" ++
  "    agent_file = os.path.join(os.path.dirname(__file__), 'agents', f'\x7bagent_name\x7d.json')\n" ++
  "    if not os.path.exists(agent_file):\n" ++
  "        print(f\"Error: Agent '\x7bagent_name\x7d' not found\")\n" ++
  "        print(\"Available agents:\")\n" ++
  "        agents_dir = os.path.join(os.path.dirname(__file__), 'agents')\n" ++
  "        for f in os.listdir(agents_dir):\n" ++
  "            if f.endswith('.json'):\n" ++
  "                print(f\"  - \x7bf[:-5]\x7d\")\n" ++
  "        sys.exit(1)\n" ++
  "    \n" ++
  "    with open(agent_file, 'r') as f:\n" ++
  "        return json.load(f)\n" ++
  "\n" ++
  "def format_prompt(agent_config, task):\n" ++
  "    \"\"\"Format the prompt for the agent\"\"\"\n" ++
  "    template_file = os.path.join(os.path.dirname(__file__), 'agents', 'prompt_template.txt')\n" ++
  "    with open(template_file, 'r') as f:\n" ++
  "        template = f.read()\n" ++
  "    \n" ++
  "    expertise = '\\n'.join(f\"- \x7bitem\x7d\" for item in agent_config['expertise'])\n" ++
  "    guidelines = '\\n'.join(f\"- \x7bitem\x7d\" for item in agent_config['guidelines'])\n" ++
  "    \n" ++
  "    prompt = template.format(\n" ++
  "        description=agent_config['description'],\n" ++
  "        expertise=expertise,\n" ++
  "        guidelines=guidelines\n" ++
  "    )\n" ++
  "    \n" ++
  "    return prompt + task\n" ++
  "\n" ++
  "if __name__ == \"__main__\":\n" ++
  "    if len(sys.argv) < 3:\n" ++
  "        print(\"Usage: python run_agent.py <agent_name> <task>\")\n" ++
  "        sys.exit(1)\n" ++
  "    \n" ++
  "    agent_name = sys.argv[1]\n" ++
  "    task = ' '.join(sys.argv[2:])\n" ++
  "    \n" ++
  "    agent_config = load_agent(agent_name)\n" ++
  "    prompt = format_prompt(agent_config, task)\n" ++
  "    \n" ++
  "    print(\"Agent Prompt:\")\n" ++
  "    print(\"=\" * 80)\n" ++
  "    print(prompt)\n" ++
  "    print(\"=\" * 80)\n"

/-- `os.path.join(a, b)` for a relative directory `a` with no trailing
slash and a plain file name `b` (the only uses the scripts make). -/
def joinPath (a b : String) : String :=
  if a = "" then b else a ++ "/" ++ b

/-- `json.dumps(s)` for the plain printable-ASCII strings of the table
(none holds a character json would escape). -/
def jsonQuote (s : String) : String := "\"" ++ s ++ "\""

/-- `json.dump(v, f, indent=2)` of one value one level deep; `ind` is the
enclosing indentation. -/
def jsonVal (ind : String) : PyVal → String
  | PyVal.pstr s => jsonQuote s
  | PyVal.plist [] => "[]"
  | PyVal.plist xs =>
    "[\n" ++ String.intercalate ",\n" (xs.map (fun x => ind ++ "  " ++ jsonQuote x))
      ++ "\n" ++ ind ++ "]"

/-- `json.dump(cfg, f, indent=2)`: the serialization `setup-agents.py`
writes for one configuration record. -/
def jsonSerialize (cfg : ConfigRecord) : String :=
  match cfg with
  | [] => "\x7b\x7d"
  | _ =>
    "\x7b\n"
      ++ String.intercalate ",\n"
        (cfg.map (fun kv => "  " ++ jsonQuote kv.1 ++ ": " ++ jsonVal "  " kv.2))
      ++ "\n\x7d"

/-- One observable side effect of the Generator, in program order. -/
inductive GenEvent where
  | mkdir (path : String)
  | writeFile (path content : String)
  | chmod (path : String) (mode : Nat)
  | printLine (s : String)
  deriving DecidableEq

/-- The straight-line effect trace of `setup-agents.py`, run with script
directory `base`: create the agents directory, write and announce each
configuration file in table order, write the template, write the Runner
copy and mark it executable (0o755 = 493), and print the closing usage
notes.  Filesystem failures are fatal and unmodelled; absent one, the
process ends normally (exit status 0, `generator_exit`). -/
def generator_trace (base : String) : List GenEvent :=
  let agents_dir := joinPath base "agents"
  [GenEvent.mkdir agents_dir] ++
  (agents.map (fun a =>
    [GenEvent.writeFile (joinPath agents_dir (a.1 ++ ".json")) (jsonSerialize a.2),
     GenEvent.printLine ("Created agent configuration: "
       ++ joinPath agents_dir (a.1 ++ ".json"))])).flatten ++
  [GenEvent.writeFile (joinPath agents_dir "prompt_template.txt") prompt_template,
   GenEvent.printLine ("\nCreated prompt template: "
     ++ joinPath agents_dir "prompt_template.txt"),
   GenEvent.writeFile (joinPath base "run_agent.py") runner_script,
   GenEvent.chmod (joinPath base "run_agent.py") 493,
   GenEvent.printLine ("\nCreated agent runner: " ++ joinPath base "run_agent.py"),
   GenEvent.printLine "\nAgent setup complete!",
   GenEvent.printLine "\nTo use an agent:",
   GenEvent.printLine "  python scripts/run_agent.py <agent-name> <task>",
   GenEvent.printLine "\nExample:",
   GenEvent.printLine "  python scripts/run_agent.py mcp-implementation \"Set up the base MCP server class\""]

/-- The exit status of a successful Generator run. -/
def generator_exit : Nat := 0

/-- A file store: path to contents. -/
def FileSys := String → Option String

/-- How one event changes the store: a write replaces the file's
contents, everything else leaves the store alone. -/
def applyEvent (fs : FileSys) : GenEvent → FileSys
  | GenEvent.writeFile p c => fun q => if q = p then some c else fs q
  | _ => fs

/-- The file store after one Generator run over `fs`. -/
def runGenerator (base : String) (fs : FileSys) : FileSys :=
  (generator_trace base).foldl applyEvent fs

/-- The `(path, contents)` pairs a trace writes, in order. -/
def writesOf (L : List GenEvent) : List (String × String) :=
  L.filterMap (fun ev => match ev with
    | GenEvent.writeFile p c => some (p, c)
    | _ => none)

/-- The lines a trace prints, in order. -/
def printsOf (L : List GenEvent) : List String :=
  L.filterMap (fun ev => match ev with
    | GenEvent.printLine s => some s
    | _ => none)

/-- The contents of the LAST write a trace makes to `q`, if any. -/
def lastWrite : List GenEvent → String → Option String
  | [], _ => none
  | ev :: L, q =>
    match lastWrite L q with
    | some c => some c
    | none =>
      match ev with
      | GenEvent.writeFile p c => if q = p then some c else none
      | _ => none

/-- A trace folded over a store reads back the last write where one
happened and the underlying store elsewhere. -/
theorem foldl_applyEvent (L : List GenEvent) (fs : FileSys) (q : String) :
    (L.foldl applyEvent fs) q =
      match lastWrite L q with
      | some c => some c
      | none => fs q := by
  induction L generalizing fs with
  | nil => simp [lastWrite]
  | cons ev L ih =>
    rw [List.foldl_cons, ih]
    cases h : lastWrite L q with
    | some c => simp [lastWrite, h]
    | none =>
      simp only [lastWrite, h]
      cases ev with
      | writeFile p c =>
        simp only [applyEvent]
        by_cases hq : q = p <;> simp [hq]
      | mkdir p => simp [applyEvent]
      | chmod p m => simp [applyEvent]
      | printLine s => simp [applyEvent]

/-- A path some write of the trace touches has a last write. -/
theorem lastWrite_ne_none (L : List GenEvent) (p : String)
    (h : p ∈ (writesOf L).map Prod.fst) : lastWrite L p ≠ none := by
  induction L with
  | nil => simp [writesOf] at h
  | cons ev L ih =>
    cases ev with
    | writeFile p' c' =>
      rcases hL : lastWrite L p with _ | c
      · have hp : p = p' ∨ p ∈ (writesOf L).map Prod.fst := by
          simpa [writesOf, List.filterMap_cons] using h
        rcases hp with hp | hp
        · subst hp
          simp [lastWrite, hL]
        · exact absurd hL (ih hp)
      · simp [lastWrite, hL]
    | mkdir q =>
      have h' : p ∈ (writesOf L).map Prod.fst := by
        simpa [writesOf, List.filterMap_cons] using h
      rcases hL : lastWrite L p with _ | c
      · exact absurd hL (ih h')
      · simp [lastWrite, hL]
    | chmod q m =>
      have h' : p ∈ (writesOf L).map Prod.fst := by
        simpa [writesOf, List.filterMap_cons] using h
      rcases hL : lastWrite L p with _ | c
      · exact absurd hL (ih h')
      · simp [lastWrite, hL]
    | printLine t =>
      have h' : p ∈ (writesOf L).map Prod.fst := by
        simpa [writesOf, List.filterMap_cons] using h
      rcases hL : lastWrite L p with _ | c
      · exact absurd hL (ih h')
      · simp [lastWrite, hL]

/-- A string ends with any suffix appended to it. -/
theorem strEndsWith_append (x y : String) : strEndsWith (x ++ y) y = true := by
  unfold strEndsWith
  rw [String.data_append, List.isSuffixOf_iff_suffix]
  exact List.suffix_append x.data y.data

/-- The Runner's `__main__` block after a successful load: the outcome is
decided by `format_prompt` on the loaded record and the joined task. -/
theorem runner_main_loaded (dir : AgentsDir) (template p a t0 : String)
    (ts : List String) (cfg : ConfigRecord)
    (hex : agentFileExists dir a = true) (hcfg : dir.config a = some cfg) :
    runner_main dir template (p :: a :: t0 :: ts)
      = match format_prompt cfg template (String.intercalate " " (t0 :: ts)) with
        | none => Outcome.fatal []
        | some prompt => Outcome.exitOk ["Agent Prompt:", banner, prompt, banner] := by
  have hlen : ¬ ((p :: a :: t0 :: ts).length < 3) := by simp
  unfold runner_main load_agent
  rw [if_neg hlen]
  simp only [show (p :: a :: t0 :: ts).getD 1 "" = a from rfl,
    show (p :: a :: t0 :: ts).drop 2 = t0 :: ts from rfl, hex, hcfg]
  rfl

/-- `format_prompt` fails (an uncaught `KeyError`) whenever one of the
three required fields is absent from the record. -/
theorem format_prompt_none_of_missing (cfg : ConfigRecord) (template : String)
    (h : dictGet cfg "description" = none ∨ dictGet cfg "expertise" = none ∨
      dictGet cfg "guidelines" = none) (task : String) :
    format_prompt cfg template task = none := by
  unfold format_prompt
  rcases h with h | h | h
  · have hd : getStr cfg "description" = none := by simp [getStr, h]
    cases he : getList cfg "expertise" <;> cases hg : getList cfg "guidelines" <;>
      simp [hd]
  · have he : getList cfg "expertise" = none := by simp [getList, h]
    simp [he]
  · have hg : getList cfg "guidelines" = none := by simp [getList, h]
    cases he : getList cfg "expertise" <;> simp [hg, he]

/-- C1: rendering substitutes the `description` value verbatim for its
placeholder and each list field as its entries prefixed with "- " and
joined one per line, over any template made of brace-free literal pieces
and the three placeholders; in particular the configuration
`(D, [E1, E2], [G1])` on the template of the three placeholders separated
by newlines renders to "D\n- E1\n- E2\n- G1\n". -/
theorem claim_c1_render_substitution (d : String) (es gs : List String)
    (items : List TItem) (task : String) (h : items.all goodItemB = true) :
    format_prompt (mkConfig d es gs) (flattenT items) task
      = some (renderItems d (bullets es) (bullets gs) items ++ task)
    ∧ format_prompt (mkConfig "D" ["E1", "E2"] ["G1"])
        "\x7bdescription\x7d\n\x7bexpertise\x7d\n\x7bguidelines\x7d\n" ""
      = some "D\n- E1\n- E2\n- G1\n" := by
  refine ⟨?_, by decide⟩
  rw [format_prompt_mkConfig, pyFormat_flatten d (bullets es) (bullets gs) items h]
  rfl

/-- Witness for C1 at a concrete piece list, configuration and task. -/
theorem claim_c1_witness :
    ([TItem.field "description", TItem.lit ": ", TItem.field "expertise"].all goodItemB
        = true)
    ∧ format_prompt (mkConfig "D" ["E"] [])
        (flattenT [TItem.field "description", TItem.lit ": ", TItem.field "expertise"]) "t"
      = some (renderItems "D" (bullets ["E"]) (bullets [])
          [TItem.field "description", TItem.lit ": ", TItem.field "expertise"] ++ "t") :=
  ⟨by decide,
    (claim_c1_render_substitution "D" ["E"] []
      [TItem.field "description", TItem.lit ": ", TItem.field "expertise"] "t"
      (by decide)).1⟩

/-- C2: with three or more command-line arguments and a loadable,
renderable configuration, the composed prompt the Runner prints is the
rendered template immediately followed by the task string (the arguments
after the agent name joined with single spaces), with no separator. -/
theorem claim_c2_compose_appends_task (dir : AgentsDir) (template p a t0 : String)
    (ts : List String) (cfg : ConfigRecord) (es gs : List String) (d r : String)
    (hex : agentFileExists dir a = true) (hcfg : dir.config a = some cfg)
    (hes : getList cfg "expertise" = some es) (hgs : getList cfg "guidelines" = some gs)
    (hd : getStr cfg "description" = some d)
    (hr : pyFormat template d (bullets es) (bullets gs) = some r) :
    runner_main dir template (p :: a :: t0 :: ts)
      = Outcome.exitOk ["Agent Prompt:", banner,
          r ++ String.intercalate " " (t0 :: ts), banner] := by
  rw [runner_main_loaded dir template p a t0 ts cfg hex hcfg]
  unfold format_prompt
  rw [hes, hgs, hd]
  simp [hr]

/-- Witness for C2 at a concrete directory, configuration and argv. -/
theorem claim_c2_witness :
    runner_main
        ⟨true, ["a.json"], fun n => if n = "a" then some (mkConfig "D" ["E1"] ["G1"]) else none⟩
        "\x7bdescription\x7d:" ["run_agent.py", "a", "do", "it"]
      = Outcome.exitOk ["Agent Prompt:", banner,
          "D:" ++ String.intercalate " " ["do", "it"], banner] :=
  claim_c2_compose_appends_task
    ⟨true, ["a.json"], fun n => if n = "a" then some (mkConfig "D" ["E1"] ["G1"]) else none⟩
    "\x7bdescription\x7d:" "run_agent.py" "a" "do" ["it"]
    (mkConfig "D" ["E1"] ["G1"]) ["E1"] ["G1"] "D" "D:"
    (by decide) (by decide) (by decide) (by decide) (by decide) (by decide)

/-- C3: when the named configuration file is absent but the directory
exists, the Runner exits with status 1 after printing the error naming
the agent, the header, and the stem (name minus the ".json" extension)
of every `.json`-suffixed file of the directory listing. -/
theorem claim_c3_not_found_listing (dir : AgentsDir) (template p a t0 : String)
    (ts : List String) (hpres : dir.present = true)
    (habs : dir.files.contains (a ++ ".json") = false) :
    runner_main dir template (p :: a :: t0 :: ts)
      = Outcome.exitErr 1 (notFoundLines a ++ availableAgentLines dir.files)
    ∧ ∀ f ∈ dir.files, strEndsWith f ".json" = true →
        ("  - " ++ f.dropRight 5) ∈ notFoundLines a ++ availableAgentLines dir.files := by
  constructor
  · have hlen : ¬ ((p :: a :: t0 :: ts).length < 3) := by simp
    have hex : agentFileExists dir a = false := by
      simp only [agentFileExists, habs, Bool.and_false]
    unfold runner_main load_agent
    rw [if_neg hlen]
    simp only [show (p :: a :: t0 :: ts).getD 1 "" = a from rfl, hex]
    simp [hpres]
  · intro f hf hjson
    refine List.mem_append.mpr (Or.inr ?_)
    unfold availableAgentLines
    exact List.mem_map_of_mem _ (List.mem_filter.mpr ⟨hf, hjson⟩)

/-- Witness for C3 at a concrete directory and argv. -/
theorem claim_c3_witness :
    runner_main ⟨true, ["a.json", "note.txt", "b.json"], fun _ => none⟩ "x"
        ["run_agent.py", "zz", "hi"]
      = Outcome.exitErr 1
          (notFoundLines "zz" ++ availableAgentLines ["a.json", "note.txt", "b.json"])
    ∧ ("  - " ++ "b.json".dropRight 5)
        ∈ notFoundLines "zz" ++ availableAgentLines ["a.json", "note.txt", "b.json"] :=
  ⟨(claim_c3_not_found_listing ⟨true, ["a.json", "note.txt", "b.json"], fun _ => none⟩
      "x" "run_agent.py" "zz" "hi" [] rfl (by decide)).1,
   (claim_c3_not_found_listing ⟨true, ["a.json", "note.txt", "b.json"], fun _ => none⟩
      "x" "run_agent.py" "zz" "hi" [] rfl (by decide)).2 "b.json" (by decide) (by decide)⟩

/-- C4: with fewer than two positional arguments the Runner prints the
usage line and exits with status 1; it touches no files — the outcome is
independent of the configuration directory and of the template file. -/
theorem claim_c4_usage (dir dir' : AgentsDir) (template template' : String)
    (argv : List String) (h : argv.length < 3) :
    runner_main dir template argv = Outcome.exitErr 1 [usageLine]
    ∧ runner_main dir template argv = runner_main dir' template' argv := by
  unfold runner_main
  rw [if_pos h, if_pos h]
  exact ⟨rfl, rfl⟩

/-- Witness for C4 at a one-argument invocation. -/
theorem claim_c4_witness :
    runner_main ⟨true, ["a.json"], fun _ => none⟩ "t" ["run_agent.py"]
      = Outcome.exitErr 1 [usageLine]
    ∧ runner_main ⟨true, ["a.json"], fun _ => none⟩ "t" ["run_agent.py"]
      = runner_main ⟨false, [], fun _ => none⟩ "u" ["run_agent.py"] :=
  claim_c4_usage ⟨true, ["a.json"], fun _ => none⟩ ⟨false, [], fun _ => none⟩
    "t" "u" ["run_agent.py"] (by decide)

/-- C5 as stated is false: on the success path standard output ends with
the closing banner line, not with the task appended to the rendered
template.  Concretely: agent "a" with configuration `(D, [E1, E2], [G1])`,
the three-placeholder template and task "hello" exits 0, yet the byte
stream written to standard output does not end with the rendered
template followed by "hello". -/
theorem claim_c5_counterexample :
    runner_main
        ⟨true, ["a.json"],
          fun n => if n = "a" then some (mkConfig "D" ["E1", "E2"] ["G1"]) else none⟩
        "\x7bdescription\x7d\n\x7bexpertise\x7d\n\x7bguidelines\x7d\n"
        ["run_agent.py", "a", "hello"]
      = Outcome.exitOk ["Agent Prompt:", banner, "D\n- E1\n- E2\n- G1\nhello", banner]
    ∧ strEndsWith
        (outStr ["Agent Prompt:", banner, "D\n- E1\n- E2\n- G1\nhello", banner])
        ("D\n- E1\n- E2\n- G1\n" ++ "hello") = false := by decide

/-- C5 amended: for a loadable, renderable configuration the Runner
exits with status 0; the composed prompt — the rendered template with
the task appended directly — is printed as the body between the two
banner lines, and standard output ends with the closing banner line. -/
theorem claim_c5_success_output (dir : AgentsDir) (template p a t0 : String)
    (ts : List String) (cfg : ConfigRecord) (es gs : List String) (d r : String)
    (hex : agentFileExists dir a = true) (hcfg : dir.config a = some cfg)
    (hes : getList cfg "expertise" = some es) (hgs : getList cfg "guidelines" = some gs)
    (hd : getStr cfg "description" = some d)
    (hr : pyFormat template d (bullets es) (bullets gs) = some r) :
    ∃ body : String,
      runner_main dir template (p :: a :: t0 :: ts)
        = Outcome.exitOk ["Agent Prompt:", banner, body, banner]
      ∧ body = r ++ String.intercalate " " (t0 :: ts)
      ∧ strEndsWith (outStr ["Agent Prompt:", banner, body, banner])
          (banner ++ "\n") = true := by
  refine ⟨r ++ String.intercalate " " (t0 :: ts), ?_, rfl, ?_⟩
  · rw [runner_main_loaded dir template p a t0 ts cfg hex hcfg]
    unfold format_prompt
    rw [hes, hgs, hd]
    simp [hr]
  · have h4 : outStr ["Agent Prompt:", banner,
        r ++ String.intercalate " " (t0 :: ts), banner]
      = outStr ["Agent Prompt:", banner, r ++ String.intercalate " " (t0 :: ts)]
        ++ (banner ++ "\n") := by
      simp [outStr, String.append_assoc, String.append_empty]
    rw [h4]
    exact strEndsWith_append _ _

/-- C6: a configuration record missing any of the three required fields
(description, expertise, guidelines) makes rendering fail fatally:
`format_prompt` raises an uncaught `KeyError` (modelled `none`) and the
Runner terminates with a traceback instead of printing a prompt. -/
theorem claim_c6_missing_field_fatal (cfg : ConfigRecord) (template task : String)
    (h : dictGet cfg "description" = none ∨ dictGet cfg "expertise" = none ∨
      dictGet cfg "guidelines" = none) :
    format_prompt cfg template task = none
    ∧ ∀ (dir : AgentsDir) (p a t0 : String) (ts : List String),
        agentFileExists dir a = true → dir.config a = some cfg →
        runner_main dir template (p :: a :: t0 :: ts) = Outcome.fatal [] := by
  refine ⟨format_prompt_none_of_missing cfg template h task, ?_⟩
  intro dir p a t0 ts hex hcfg
  rw [runner_main_loaded dir template p a t0 ts cfg hex hcfg,
    format_prompt_none_of_missing cfg template h _]

/-- Witness for C6 at a record holding only a description. -/
theorem claim_c6_witness :
    (dictGet [("description", PyVal.pstr "D")] "description" = none ∨
     dictGet [("description", PyVal.pstr "D")] "expertise" = none ∨
     dictGet [("description", PyVal.pstr "D")] "guidelines" = none)
    ∧ format_prompt [("description", PyVal.pstr "D")] "x" "t" = none :=
  ⟨Or.inr (Or.inl (by decide)),
   (claim_c6_missing_field_fatal [("description", PyVal.pstr "D")] "x" "t"
      (Or.inr (Or.inl (by decide)))).1⟩

/-- C7: running the Generator twice in succession leaves the same file
store as running it once, and what a run leaves at every path it writes
is independent of the prior store: each write is a pure overwrite of a
deterministic serialization of the fixed table, so no stale state
survives and contents do not change between runs. -/
theorem claim_c7_generator_idempotent :
    (∀ (base : String) (fs : FileSys),
        runGenerator base (runGenerator base fs) = runGenerator base fs)
    ∧ ∀ (base p : String) (fs fs' : FileSys),
        p ∈ (writesOf (generator_trace base)).map Prod.fst →
        runGenerator base fs p = runGenerator base fs' p := by
  constructor
  · intro base fs
    funext q
    unfold runGenerator
    rw [foldl_applyEvent (generator_trace base) ((generator_trace base).foldl applyEvent fs) q,
      foldl_applyEvent (generator_trace base) fs q]
    cases h : lastWrite (generator_trace base) q <;> simp [h]
  · intro base p fs fs' hp
    have hne := lastWrite_ne_none (generator_trace base) p hp
    unfold runGenerator
    rw [foldl_applyEvent (generator_trace base) fs p,
      foldl_applyEvent (generator_trace base) fs' p]
    cases h : lastWrite (generator_trace base) p
    · exact absurd h hne
    · simp

/-- Witness for C7: the Runner-copy path is written, and what two runs
from different stores leave there agrees. -/
theorem claim_c7_witness :
    "scripts/run_agent.py" ∈ (writesOf (generator_trace "scripts")).map Prod.fst
    ∧ runGenerator "scripts" (fun _ => none) "scripts/run_agent.py"
      = runGenerator "scripts" (fun _ => some "stale") "scripts/run_agent.py" :=
  ⟨by decide,
   claim_c7_generator_idempotent.2 "scripts" "scripts/run_agent.py"
     (fun _ => none) (fun _ => some "stale") (by decide)⟩

/-- C8: rendering is deterministic — any two runs of the rendering step
on the same configuration record, the same template text and the same
task produce byte-identical results. -/
theorem claim_c8_render_deterministic (cfg : ConfigRecord) (template task : String)
    (r1 r2 : Option String)
    (h1 : r1 = format_prompt cfg template task)
    (h2 : r2 = format_prompt cfg template task) : r1 = r2 := h1.trans h2.symm

/-- Witness for C8 at a concrete record, template and task. -/
theorem claim_c8_witness :
    format_prompt (mkConfig "D" ["E"] ["G"]) "\x7bdescription\x7d" "t"
      = format_prompt (mkConfig "D" ["E"] ["G"]) "\x7bdescription\x7d" "t" :=
  claim_c8_render_deterministic (mkConfig "D" ["E"] ["G"]) "\x7bdescription\x7d" "t"
    (format_prompt (mkConfig "D" ["E"] ["G"]) "\x7bdescription\x7d" "t")
    (format_prompt (mkConfig "D" ["E"] ["G"]) "\x7bdescription\x7d" "t") rfl rfl

/-- C9: one Generator run writes exactly one serialized configuration
file per entry of the fixed five-entry table into the configuration
directory, in table order, then the shared template text, then the
Runner source copy into the parent directory, marks that copy executable
(mode 0o755 = 493), prints a summary line for every file created plus
the closing usage notes, and exits with status 0. -/
theorem claim_c9_generator_files (base : String) :
    agents.length = 5
    ∧ writesOf (generator_trace base)
        = agents.map (fun a =>
            (joinPath (joinPath base "agents") (a.1 ++ ".json"), jsonSerialize a.2))
          ++ [(joinPath (joinPath base "agents") "prompt_template.txt", prompt_template),
              (joinPath base "run_agent.py", runner_script)]
    ∧ (writesOf (generator_trace "scripts")).map Prod.fst
        = ["scripts/agents/mcp-implementation.json",
           "scripts/agents/database-architect.json",
           "scripts/agents/tool-implementer.json",
           "scripts/agents/search-optimizer.json",
           "scripts/agents/test-engineer.json",
           "scripts/agents/prompt_template.txt",
           "scripts/run_agent.py"]
    ∧ GenEvent.chmod (joinPath base "run_agent.py") 493 ∈ generator_trace base
    ∧ printsOf (generator_trace base)
        = (agents.map (fun a => "Created agent configuration: "
            ++ joinPath (joinPath base "agents") (a.1 ++ ".json")))
          ++ ["\nCreated prompt template: "
                ++ joinPath (joinPath base "agents") "prompt_template.txt",
              "\nCreated agent runner: " ++ joinPath base "run_agent.py",
              "\nAgent setup complete!", "\nTo use an agent:",
              "  python scripts/run_agent.py <agent-name> <task>", "\nExample:",
              "  python scripts/run_agent.py mcp-implementation \"Set up the base MCP server class\""]
    ∧ generator_exit = 0 := by
  refine ⟨rfl, rfl, by decide, ?_, rfl, rfl⟩
  simp [generator_trace, agents]

/-- C10: when the configuration directory itself is missing, the
not-found path is not graceful: after printing the error naming the
agent and the "Available agents:" header, `os.listdir` raises an
uncaught `FileNotFoundError`, so the Runner dies with a traceback and
never prints the available names. -/
theorem claim_c10_missing_dir_fatal (dir : AgentsDir) (template p a t0 : String)
    (ts : List String) (h : dir.present = false) :
    runner_main dir template (p :: a :: t0 :: ts)
      = Outcome.fatal (notFoundLines a) := by
  have hlen : ¬ ((p :: a :: t0 :: ts).length < 3) := by simp
  have hex : agentFileExists dir a = false := by
    simp [agentFileExists, h]
  unfold runner_main load_agent
  rw [if_neg hlen]
  simp only [show (p :: a :: t0 :: ts).getD 1 "" = a from rfl, hex, h]
  simp

/-- Witness for C10 at a concrete missing directory. -/
theorem claim_c10_witness :
    runner_main ⟨false, [], fun _ => none⟩ "x" ["run_agent.py", "zz", "hi"]
      = Outcome.fatal (notFoundLines "zz") :=
  claim_c10_missing_dir_fatal ⟨false, [], fun _ => none⟩ "x" "run_agent.py" "zz" "hi"
    [] rfl

/-- Witness for the amended C5 at a concrete directory, configuration
and argv. -/
theorem claim_c5_witness :
    ∃ body : String,
      runner_main
          ⟨true, ["a.json"], fun n => if n = "a" then some (mkConfig "D" ["E1"] ["G1"]) else none⟩
          "\x7bdescription\x7d!" ["run_agent.py", "a", "go"]
        = Outcome.exitOk ["Agent Prompt:", banner, body, banner]
      ∧ body = "D!" ++ String.intercalate " " ["go"]
      ∧ strEndsWith (outStr ["Agent Prompt:", banner, body, banner])
          (banner ++ "\n") = true :=
  claim_c5_success_output
    ⟨true, ["a.json"], fun n => if n = "a" then some (mkConfig "D" ["E1"] ["G1"]) else none⟩
    "\x7bdescription\x7d!" "run_agent.py" "a" "go" []
    (mkConfig "D" ["E1"] ["G1"]) ["E1"] ["G1"] "D" "D!"
    (by decide) (by decide) (by decide) (by decide) (by decide) (by decide)

/-- Witness for C9 at the script directory "scripts". -/
theorem claim_c9_witness : agents.length = 5 ∧ generator_exit = 0 :=
  ⟨(claim_c9_generator_files "scripts").1,
   (claim_c9_generator_files "scripts").2.2.2.2.2⟩
